import Mathlib

/-!
Verification development for the caf.ntem data transformation and query
pipeline.  The Python source (build.py, queries.py, query.py,
ntem_constants.py) is embedded shallowly: pandas DataFrames indexed by a
MultiIndex become lists of (index tuple, value) rows together with the list
of index level names; store tables become lists of records; fallible code
returns Except values carrying the raised message or a structured error.
All numeric values are rationals, mirroring exact float-free arithmetic on
the small concrete inputs used in the theorems.
-/

/-! ## ntem_constants.py -/

/-- Embeds the Python builtin range(start, stop, step) for a positive step,
as used to build the native year grid in ntem_constants.py lines 25-31. -/
def pythonRange (start stop step : Int) : List Int :=
  if 0 < step then
    (List.range (((stop - start + step - 1) / step).toNat)).map
      (fun k => start + step * (k : Int))
  else []

def _NTEM_LOW_YEAR : Int := 2011

def _NTEM_HIGH_YEAR : Int := 2061

def _NTEM_YEAR_STEP : Int := 5

/-- ntem_constants.NTEM_YEARS: np.array(range(low, high + 1, step)). -/
def NTEM_YEARS : List Int :=
  pythonRange _NTEM_LOW_YEAR (_NTEM_HIGH_YEAR + 1) _NTEM_YEAR_STEP

/-! ## numpy empty reductions

numpy raises ValueError when min or max is taken over an empty array; the
messages below are the ones numpy produces.  np_min and np_max embed
ndarray.min() and ndarray.max() over the (filtered) year grid. -/

def numpy_empty_min_error : String :=
  "zero-size array to reduction operation minimum which has no identity"

def numpy_empty_max_error : String :=
  "zero-size array to reduction operation maximum which has no identity"

def np_min (a : List Int) : Except String Int :=
  match a with
  | [] => .error numpy_empty_min_error
  | x :: xs => .ok (xs.foldl min x)

def np_max (a : List Int) : Except String Int :=
  match a with
  | [] => .error numpy_empty_max_error
  | x :: xs => .ok (xs.foldl max x)

/-- queries.py lines 851-860 (identical in query.py lines 757-766):
returns none when the year is on the native grid, otherwise the pair
(lower_year, upper_year); the upper year is computed first, exactly as in
the source, so an empty mask raises the corresponding numpy message. -/
def _interpolation_years (year : Int) : Except String (Option (Int × Int)) :=
  if year ∈ NTEM_YEARS then .ok none
  else
    match np_min (NTEM_YEARS.filter (fun a => year < a)) with
    | .error e => .error e
    | .ok upper_year =>
      match np_max (NTEM_YEARS.filter (fun a => a < year)) with
      | .error e => .error e
      | .ok lower_year => .ok (some (lower_year, upper_year))

/-! ## pandas DataFrame model for the interpolation wrapper

A frame is a MultiIndexed single value column: levelNames are the index
level names, each row is its index tuple (one Int coordinate per level)
paired with the value.  Index coordinates are Int since the wrapper only
ever selects on the year level. -/

deriving instance DecidableEq for Except

structure LFrame where
  levelNames : List String
  rows : List (List Int × ℚ)
deriving Repr, DecidableEq

/-- Position of an index level, as pandas resolves a level name. -/
def level_pos (f : LFrame) (lvl : String) : Nat := f.levelNames.indexOf lvl

/-- df.xs(y, level="year", drop_level=False): keep rows whose year
coordinate is y, level structure unchanged (queries.py line 64). -/
def xs_keep_year (f : LFrame) (y : Int) : LFrame :=
  { levelNames := f.levelNames,
    rows := f.rows.filter (fun r => r.1.get? (level_pos f "year") = some y) }

/-- df.xs(y, level="year"): keep rows whose year coordinate is y and drop
the year level (queries.py lines 70-74). -/
def xs_drop_year (f : LFrame) (y : Int) : LFrame :=
  { levelNames := f.levelNames.eraseIdx (level_pos f "year"),
    rows := (f.rows.filter (fun r => r.1.get? (level_pos f "year") = some y)).map
      (fun r => (r.1.eraseIdx (level_pos f "year"), r.2)) }

/-- df.reorder_levels(levels) for the specific permutation built at
queries.py lines 49-57: the year level is removed from the level list and
appended at the end, and every row tuple is permuted accordingly. -/
def reorder_levels_to_last (f : LFrame) (lvl : String) : LFrame :=
  let new_names := (f.levelNames.erase lvl) ++ [lvl]
  let positions := new_names.map (fun n => f.levelNames.indexOf n)
  { levelNames := new_names,
    rows := f.rows.map (fun r => (positions.map (fun i => r.1.getD i 0), r.2)) }

/-- The interpolated slice built at queries.py lines 66-77.  All three
frame operands of the arithmetic are the same cross-section
query_out.xs(interp_years[1], level="year"), so the pandas index-aligned
arithmetic is cell-wise on that single frame; interp_years = (lo, up).
The source expression is
  ((xs(up) - xs(up)) / (interp_years[0] - interp_years[1]))
    * (y - interp_years[0]) + xs(up)
followed by interp["year"] = y; interp.set_index("year", append=True). -/
def interp_slice (qo : LFrame) (y lo up : Int) : LFrame :=
  let s := xs_drop_year qo up
  { levelNames := s.levelNames ++ ["year"],
    rows := s.rows.map (fun r =>
      (r.1 ++ [y],
       (r.2 - r.2) / ((lo : ℚ) - (up : ℚ)) * ((y : ℚ) - (lo : ℚ)) + r.2)) }

/-- pd.concat(output_stack); every stacked frame carries the reordered
level structure, which queries.py guarantees by reordering first. -/
def concat_frames (names : List String) (frames : List LFrame) : LFrame :=
  { levelNames := names, rows := (frames.map (fun f => f.rows)).flatten }

/-- Python set insertion order for query_years (only membership is ever
used downstream, via year.in_(query_years)). -/
def insert_year (l : List Int) (y : Int) : List Int := if y ∈ l then l else l ++ [y]

/-- The first loop of the wrapper (queries.py lines 26-36): builds the
interpolations dict and the set of native years to query; the first
out-of-grid year outside the bracketing range propagates the numpy
error. -/
def gather_years (years : List Int) :
    Except String (List (Int × Option (Int × Int)) × List Int) :=
  years.foldlM
    (fun acc y =>
      match _interpolation_years y with
      | .error e => .error e
      | .ok none => .ok (acc.1 ++ [(y, none)], insert_year acc.2 y)
      | .ok (some lu) =>
          .ok (acc.1 ++ [(y, some lu)], insert_year (insert_year acc.2 lu.1) lu.2))
    ([], [])

/-- queries.py _linear_interpolate.wrapper_func (lines 22-88).  The wrapped
query func may itself raise, mirroring the exceptions the Python query
body can raise before any store rows are produced. -/
def _linear_interpolate (func : List Int → Except String LFrame)
    (years : List Int) : Except String LFrame :=
  match gather_years years with
  | .error e => .error e
  | .ok (interpolations, query_years) =>
    match func query_years with
    | .error e => .error e
    | .ok query_out =>
      if query_out.rows.length = 0 then .error "No data returned from query"
      else if "year" ∉ query_out.levelNames then
        .error "\x27year\x27 not in index levels"
      else
        let qo := reorder_levels_to_last query_out "year"
        let output_stack := years.map (fun y =>
          match interpolations.lookup y with
          | some (some lu) => interp_slice qo y lu.1 lu.2
          | _ => xs_keep_year qo y)
        match output_stack with
        | [] => .error "No objects to concatenate"
        | _ => .ok (concat_frames qo.levelNames output_stack)

/-- query.py _linear_interpolate.wrapper_func (lines 23-48), at the level
of one row cell: value gives the wrapped query result for a native year at
a fixed row key; interp_years = (lower, upper).  The source computes
  gradient = (upper - lower) / (interp_years[0] - interp_years[1])
  gradient * (year - interp_years[0]) + lower. -/
def query_py_linear_interpolate (value : Int → ℚ) (year : Int) :
    Except String ℚ :=
  match _interpolation_years year with
  | .error e => .error e
  | .ok none => .ok (value year)
  | .ok (some lu) =>
      let gradient := (value lu.2 - value lu.1) / ((lu.1 : ℚ) - (lu.2 : ℚ))
      .ok (gradient * ((year : ℚ) - (lu.1 : ℚ)) + value lu.1)

/-- The interpolation formula as the specification states it (spec section
4.4): value(y) = (value(upper) - value(lower)) / (upper - lower)
* (y - lower) + value(lower).  Kept separate from the source embeddings
above so the two can be compared. -/
def spec_linear_interpolation (vLower vUpper : ℚ) (lower upper y : Int) : ℚ :=
  (vUpper - vLower) / ((upper : ℚ) - (lower : ℚ)) * ((y : ℚ) - (lower : ℚ)) + vLower

example : NTEM_YEARS = [2011, 2016, 2021, 2026, 2031, 2036, 2041, 2046, 2051, 2056, 2061] := by
  decide

example : _interpolation_years 2018 = .ok (some (2016, 2021)) := by decide

example : _interpolation_years 2016 = .ok none := by decide

example : _interpolation_years 2062 = .error numpy_empty_min_error := by decide

example : _interpolation_years 2010 = .error numpy_empty_max_error := by decide

/-! ## build.py -/

def INVALID_ZONE_ID : Int := 9999

/-- Structured embedding of the exceptions raised during a load.
missing_columns carries the data interpolated into the KeyError message at
build.py lines 99-101 ("Could not find columns ... in ..."); the message
names every target column of the rename map together with the table.
merge_not_one_to_one is the pandas MergeError produced by
merge(validate="one_to_one") at build.py lines 439-444. -/
inductive LoadError where
  | missing_columns (columns : List String) (table : String)
  | merge_not_one_to_one
deriving Repr, DecidableEq

/-- df.rename(columns=mapping) on the column labels: labels found as keys
of the mapping are replaced, all others are kept unchanged (pandas rename
silently ignores mapping keys that are absent). -/
def pandas_rename_columns (cols : List String) (mapping : List (String × String)) :
    List String :=
  cols.map (fun c => ((mapping.lookup c).getD c))

/-- build.py access_to_df (lines 71-102), at the level of the column
structure (row content is irrelevant to the claims about it): returns the
column labels of the produced DataFrame.  With a substitute mapping the
source does df.rename(columns=substitute).loc[:, substitute.values()],
re-raising the KeyError as a message naming substitute.values() and the
table when a selected column is absent after the rename. -/
def access_to_df (table : String) (columns : List String)
    (substitute : Option (List (String × String))) :
    Except LoadError (List String) :=
  match substitute with
  | none => .ok columns
  | some sub =>
      let renamed := pandas_rename_columns columns sub
      let targets := sub.map Prod.snd
      if ∀ c ∈ targets, c ∈ renamed then .ok targets
      else .error (.missing_columns targets table)

/-- One iteration of create_lookup_tables (build.py lines 310-316): read
the access table, then append the resulting frame to the store; the read
error propagates before anything is appended. -/
def load_lookup_table (store : List (List String)) (table : String)
    (columns : List String) (substitute : Option (List (String × String))) :
    Except LoadError (List (List String)) :=
  match access_to_df table columns substitute with
  | .error e => .error e
  | .ok df => .ok (store ++ [df])

/-- Series.replace(mapping): values found as keys of the mapping are
replaced, all others kept. -/
def pandas_replace (mapping : List (Int × Int)) (x : Int) : Int :=
  (mapping.lookup x).getD x

/-- A wide NTEM access fact table after the column rename: each row
carries its zone_id, the values of the remaining id columns, and one value
per year column.  year_columns are the non-id columns that melt turns into
(year, value) pairs. -/
structure WideTable where
  year_columns : List Int
  rows : List (Int × List Int × List ℚ)

/-- One long-format fact row as appended by the fact loader. -/
structure FactRow where
  metadata_id : Int
  zone_type_id : Int
  zone_id : Int
  other_ids : List Int
  year : Int
  value : ℚ
deriving Repr, DecidableEq

/-- build.py _process_ntem_access_file (lines 190-238): add the
metadata_id and zone_type_id = 1 columns, drop rows whose zone_id is the
reserved invalid marker, melt the year columns to long format (pandas
melt stacks the frame once per value column), then translate zone_id
through the id substitution, producing the rows appended to the fact
table. -/
def _process_ntem_access_file (table : WideTable) (metadata_id : Int)
    (id_substitution : List (Int × Int)) : List FactRow :=
  let kept := table.rows.filter (fun r => r.1 ≠ INVALID_ZONE_ID)
  let melted := (table.year_columns.enum).flatMap (fun p =>
    kept.map (fun r =>
      ({ metadata_id := metadata_id, zone_type_id := 1, zone_id := r.1,
         other_ids := r.2.1, year := p.2, value := (r.2.2).getD p.1 0 } : FactRow)))
  melted.map (fun fr => { fr with zone_id := pandas_replace id_substitution fr.zone_id })

/-- One raw fine-zone record of the ntem_zoning lookup table after the
column rename (db_structure.ACCESS_TO_DB_COLUMNS["ntem_zoning"]): the raw
zone key and its raw foreign keys into the three coarser hierarchies. -/
structure NtemZoningRecord where
  ntem_zoning_id : Int
  region_id : Int
  authority_id : Int
  county_id : Int
deriving Repr, DecidableEq

structure GeoRow where
  from_zone_id : Int
  from_zone_type_id : Int
  to_zone_id : Int
  to_zone_type_id : Int
deriving Repr, DecidableEq

/-- DataFrame.to_sql(..., if_exists="replace"): pandas drops the existing
table and inserts only the new rows. -/
def to_sql_replace (_table new_rows : List GeoRow) : List GeoRow := new_rows

/-- build.py create_geo_lookup_table, crosswalk portion (lines 376-404):
the raw fine-zone key column is translated through the zones id lookup to
from_zone_id, and then, for each coarser system in the iteration order of
system_id_lookup (region, county, authority), the corresponding raw
foreign-key column is translated through that system id lookup to
to_zone_id and the frame is written to geo_lookup with
to_sql(if_exists="replace").  The id lookups are the mappings returned by
_process_geo_lookup_data. -/
def create_geo_lookup_table (geo_table : List GeoRow)
    (lookup_data : List NtemZoningRecord)
    (zones_id_lookup region_lookup county_lookup authority_lookup : List (Int × Int))
    (zone_type_id region_type_id county_type_id authority_type_id : Int) :
    List GeoRow :=
  let base := lookup_data.map
    (fun r => (pandas_replace zones_id_lookup r.ntem_zoning_id, r))
  let system_rows := fun (col : NtemZoningRecord → Int)
      (m : List (Int × Int)) (tid : Int) =>
    base.map (fun p =>
      { from_zone_id := p.1, from_zone_type_id := zone_type_id,
        to_zone_id := pandas_replace m (col p.2), to_zone_type_id := tid })
  let t1 := to_sql_replace geo_table
    (system_rows (fun r => r.region_id) region_lookup region_type_id)
  let t2 := to_sql_replace t1
    (system_rows (fun r => r.county_id) county_lookup county_type_id)
  to_sql_replace t2
    (system_rows (fun r => r.authority_id) authority_lookup authority_type_id)

/-- One raw record of a zoning hierarchy lookup table after the column
rename: its raw integer key, its name, and its source code (the
source_id_or_code column, present only for some hierarchies). -/
structure ZoneSourceRecord where
  ntem_zoning_id : Int
  name : String
  source_id_or_code : String
deriving Repr, DecidableEq

/-- One row of the Zones database table. -/
structure DbZoneRow where
  id : Int
  zone_type_id : Int
  name : String
  source_id_or_code : Option String
deriving Repr, DecidableEq

/-- The natural key used to join re-read Zone rows back to the raw
records: the source code when the source table has that column, else the
name (build.py lines 419-424). -/
def natural_join_key (has_code_column : Bool) (r : ZoneSourceRecord) : String :=
  if has_code_column then r.source_id_or_code else r.name

/-- build.py _process_geo_lookup_data (lines 407-448): append the system
records to the Zones table (the store assigns fresh sequential ids),
re-read every Zones row of this zone type, and merge the re-read rows back
to the raw records on the natural key with validate="one_to_one"; pandas
raises MergeError when the merge keys are not unique on both sides.
On success returns the updated Zones table and the
raw ntem_zoning_id to database id mapping. -/
def _process_geo_lookup_data (zones_table : List DbZoneRow)
    (system_data : List ZoneSourceRecord) (has_code_column : Bool)
    (system_id : Int) :
    Except LoadError (List DbZoneRow × List (Int × Int)) :=
  let next_id := (zones_table.map (fun z => z.id)).foldr max 0 + 1
  let new_rows := (system_data.enum).map (fun p =>
    ({ id := next_id + (p.1 : Int), zone_type_id := system_id, name := p.2.name,
       source_id_or_code :=
         if has_code_column then some p.2.source_id_or_code else none } : DbZoneRow))
  let zones2 := zones_table ++ new_rows
  let reread := zones2.filter (fun z => z.zone_type_id = system_id)
  let db_key := fun (z : DbZoneRow) =>
    if has_code_column then (z.source_id_or_code).getD "" else z.name
  let left_keys := reread.map db_key
  let right_keys := system_data.map (natural_join_key has_code_column)
  if left_keys.Nodup ∧ right_keys.Nodup then
    .ok (zones2, reread.filterMap (fun z =>
      (system_data.find? (fun r =>
          natural_join_key has_code_column r = db_key z)).map
        (fun r => (r.ntem_zoning_id, z.id))))
  else .error .merge_not_one_to_one

/-! ## queries.py spatial filter handling

The four query types diverge on the filter_zoning_system and
filter_zone_names pairing: the two trip end query types raise a ValueError
when exactly one is supplied (queries.py lines 572-583 and 793-804), while
PlanningQuery (lines 185-188) and CarOwnershipQuery (lines 295-297) only
test for both being present and silently skip the spatial filter
otherwise.  Each function returns whether the spatial filter is applied to
the data filter. -/

def filter_pair_error : String :=
  "Both filter_zoning_system and filter_zone must be provided or neither provided if no spatial filter is to be performed."

def planning_spatial_filter (filter_zoning_system : Option Int)
    (filter_zone_names : Option (List String)) : Except String Bool :=
  if filter_zoning_system.isSome && filter_zone_names.isSome then .ok true
  else .ok false

def car_ownership_spatial_filter (filter_zoning_system : Option Int)
    (filter_zone_names : Option (List String)) : Except String Bool :=
  if filter_zoning_system.isSome && filter_zone_names.isSome then .ok true
  else .ok false

def trip_end_by_direction_spatial_filter (filter_zoning_system : Option Int)
    (filter_zone_names : Option (List String)) : Except String Bool :=
  if filter_zoning_system.isSome && filter_zone_names.isSome then .ok true
  else if (filter_zoning_system.isSome && !filter_zone_names.isSome)
      || (!filter_zoning_system.isSome && filter_zone_names.isSome) then
    .error filter_pair_error
  else .ok false

def trip_end_by_car_availability_spatial_filter (filter_zoning_system : Option Int)
    (filter_zone_names : Option (List String)) : Except String Bool :=
  if filter_zoning_system.isSome && filter_zone_names.isSome then .ok true
  else if (filter_zoning_system.isSome && !filter_zone_names.isSome)
      || (!filter_zoning_system.isSome && filter_zone_names.isSome) then
    .error filter_pair_error
  else .ok false

/-- TripEndByDirectionQuery._data_query as seen by the interpolation
wrapper: the spatial filter pairing is checked while the select statement
is being built, before db_handler.query_to_pandas executes anything
(queries.py lines 566-626), so the store function is only consulted after
the check passes. -/
def trip_end_by_direction_data_query (run_store : List Int → LFrame)
    (filter_zoning_system : Option Int)
    (filter_zone_names : Option (List String)) :
    List Int → Except String LFrame := fun years =>
  match trip_end_by_direction_spatial_filter filter_zoning_system filter_zone_names with
  | .error e => .error e
  | .ok _ => .ok (run_store years)

example :
    access_to_df "tblLookUpPlanning83" ["PlanID", "PlanDesc"]
      (some [("PlanID", "id"), ("PlanDesc", "name")]) = .ok ["id", "name"] := by
  decide

example :
    access_to_df "tblLookUpPlanning83" ["PlanID"]
      (some [("PlanID", "id"), ("PlanDesc", "name")])
      = .error (.missing_columns ["id", "name"] "tblLookUpPlanning83") := by
  decide

/-! ## Concrete fixtures used by the claim theorems -/

/-- A wrapped query holding one row key (zone 1) with value 0 at native
year 2016 and value 10 at native year 2021, honouring the year filter of
the select statement it stands for. -/
def c1_query_func : List Int → Except String LFrame := fun ys =>
  .ok { levelNames := ["zone", "year"],
        rows := (if (2016 : Int) ∈ ys then [([1, 2016], (0 : ℚ))] else [])
             ++ (if (2021 : Int) ∈ ys then [([1, 2021], (10 : ℚ))] else []) }

def empty_year_frame : LFrame := { levelNames := ["year"], rows := [] }

def one_row_year_frame : LFrame := { levelNames := ["year"], rows := [([2061], 1)] }

/-! ## Claim theorems -/

/-- Claim C1 (code bug).  The batched interpolator does not return the
linear interpolation value: the expression at queries.py lines 68-74
subtracts the upper-year cross-section from itself, so the slope term is
always zero and the wrapper returns value(upper) for every interpolated
year.  At the failing input (value 0 at native year 2016, value 10 at
native year 2021, requested year 2018) the code yields 10 while the
formula stated by the spec, by the comment at queries.py line 67, and
expected by the repository regression fixtures, yields 4. -/
theorem interpolation_formula_code_bug :
    _linear_interpolate c1_query_func [2018]
        = .ok { levelNames := ["zone", "year"], rows := [([1, 2018], (10 : ℚ))] }
    ∧ spec_linear_interpolation 0 10 2016 2021 2018 = 4
    ∧ ((10 : ℚ) ≠ 4) := by
  refine ⟨?_, by norm_num [spec_linear_interpolation], by norm_num⟩
  have hg : gather_years [2018] = .ok ([(2018, some (2016, 2021))], [2016, 2021]) := by
    decide
  simp only [_linear_interpolate, hg]
  simp +decide [c1_query_func, reorder_levels_to_last, level_pos, xs_keep_year,
    xs_drop_year, interp_slice, concat_frames, List.lookup]

/-- Supporting fact for C1: the earlier row-oriented wrapper in query.py
(lines 46-48) is wrong in a different way, negating the gradient: on the
same data it returns -4 where the spec formula gives 4. -/
theorem query_py_interpolation_negated_gradient :
    query_py_linear_interpolate (fun v => if v = 2016 then 0 else 10) 2018 = .ok (-4) := by
  have hi : _interpolation_years 2018 = .ok (some (2016, 2021)) := by decide
  simp only [query_py_linear_interpolate, hi]
  norm_num

/-- Claim C2 (code bug).  create_geo_lookup_table writes the crosswalk of
each coarser hierarchy with to_sql(if_exists="replace") (build.py lines
397-402), so each of the three writes drops the table and only the
authority mapping, written last, survives; the pass does not leave one row
per (fine zone x coarser hierarchy) pair.  Evaluated at a one-record
lookup source (raw fine zone 100 mapped to database zone 1; region 7,
county 9, authority 8 mapped to database zones 41, 42, 43; zone type ids
1, 4, 3, 2): the final geo_lookup table is exactly the single
fine-to-authority row and holds no county or region row. -/
theorem geo_lookup_only_last_hierarchy_bug :
    create_geo_lookup_table []
        [{ ntem_zoning_id := 100, region_id := 7, authority_id := 8, county_id := 9 }]
        [(100, 1)] [(7, 41)] [(9, 42)] [(8, 43)] 1 4 3 2
      = [{ from_zone_id := 1, from_zone_type_id := 1, to_zone_id := 43,
           to_zone_type_id := 2 }]
    ∧ ∀ g ∈ create_geo_lookup_table []
        [{ ntem_zoning_id := 100, region_id := 7, authority_id := 8, county_id := 9 }]
        [(100, 1)] [(7, 41)] [(9, 42)] [(8, 43)] 1 4 3 2,
        g.to_zone_type_id ≠ 3 ∧ g.to_zone_type_id ≠ 4 := by
  decide

/-- Claim C3, counterexample.  Supplying exactly one of
filter_zoning_system and filter_zone_names does not raise for every query
type: PlanningQuery (queries.py lines 185-188) and CarOwnershipQuery
(lines 295-297) only test for both being present and silently skip the
spatial filter when exactly one is given. -/
theorem planning_lone_filter_silently_ok :
    planning_spatial_filter (some 2) none = .ok false
    ∧ car_ownership_spatial_filter (some 2) none = .ok false := by
  decide

/-- Claim C3, amended.  Only TripEndByDirectionQuery and
TripEndByCarAvailbilityQuery raise the usage error when exactly one of the
two filter arguments is supplied, and they do so while the statement is
built, before the store is consulted (the composed wrapper errors for
every store function); supplying both or neither never raises for any
query type; PlanningQuery and CarOwnershipQuery never raise and simply
apply no spatial filter. -/
theorem spatial_filter_pairing_amended (z : Int) (names : List String)
    (run_store : List Int → LFrame) :
    trip_end_by_direction_spatial_filter (some z) none = .error filter_pair_error
    ∧ trip_end_by_direction_spatial_filter none (some names) = .error filter_pair_error
    ∧ trip_end_by_direction_spatial_filter (some z) (some names) = .ok true
    ∧ trip_end_by_direction_spatial_filter none none = .ok false
    ∧ trip_end_by_car_availability_spatial_filter (some z) none = .error filter_pair_error
    ∧ trip_end_by_car_availability_spatial_filter none (some names) = .error filter_pair_error
    ∧ trip_end_by_car_availability_spatial_filter (some z) (some names) = .ok true
    ∧ trip_end_by_car_availability_spatial_filter none none = .ok false
    ∧ planning_spatial_filter (some z) none = .ok false
    ∧ planning_spatial_filter none (some names) = .ok false
    ∧ car_ownership_spatial_filter (some z) none = .ok false
    ∧ car_ownership_spatial_filter none (some names) = .ok false
    ∧ _linear_interpolate (trip_end_by_direction_data_query run_store (some z) none) [2016]
        = .error filter_pair_error := by
  refine ⟨rfl, rfl, rfl, rfl, rfl, rfl, rfl, rfl, rfl, rfl, rfl, rfl, ?_⟩
  rfl

/-- Claim C5, counterexample.  The interpolator fails for a year outside
the native grid range instead of extrapolating: for 2062 every native year
is below the requested year, the upper-bracket mask is empty, and the
numpy reduction error propagates out of the wrapper; likewise 2010 fails
on the lower bracket. -/
theorem out_of_range_year_errors_counterexample :
    _linear_interpolate (fun _ => .ok one_row_year_frame) [2062]
        = .error numpy_empty_min_error
    ∧ _linear_interpolate (fun _ => .ok one_row_year_frame) [2010]
        = .error numpy_empty_max_error := by
  decide

/-- All native grid years lie between the configured low and high years. -/
theorem ntem_years_within_bounds :
    ∀ a ∈ NTEM_YEARS, _NTEM_LOW_YEAR ≤ a ∧ a ≤ _NTEM_HIGH_YEAR := by decide

/-- Claim C5, amended.  For a requested year strictly above the highest
native year, _interpolation_years raises the numpy empty-minimum error
(the mask of native years above the request is empty); for a year strictly
below the lowest native year it raises the numpy empty-maximum error.  No
extrapolation is performed. -/
theorem out_of_range_interpolation_raises (y : Int) :
    (_NTEM_HIGH_YEAR < y → _interpolation_years y = .error numpy_empty_min_error)
    ∧ (y < _NTEM_LOW_YEAR → _interpolation_years y = .error numpy_empty_max_error) := by
  have hlow : _NTEM_LOW_YEAR = 2011 := rfl
  have hhigh : _NTEM_HIGH_YEAR = 2061 := rfl
  constructor
  · intro h
    have hmem : y ∉ NTEM_YEARS := by
      intro hy
      have := (ntem_years_within_bounds y hy).2
      omega
    have hfil : NTEM_YEARS.filter (fun a => y < a) = [] := by
      apply List.filter_eq_nil_iff.mpr
      intro a ha
      have := (ntem_years_within_bounds a ha).2
      simp only [decide_eq_true_eq]
      omega
    unfold _interpolation_years
    rw [if_neg hmem, hfil]
    rfl
  · intro h
    have hmem : y ∉ NTEM_YEARS := by
      intro hy
      have := (ntem_years_within_bounds y hy).1
      omega
    have hfil1 : NTEM_YEARS.filter (fun a => y < a) = NTEM_YEARS := by
      apply List.filter_eq_self.mpr
      intro a ha
      have := (ntem_years_within_bounds a ha).1
      simp only [decide_eq_true_eq]
      omega
    have hmin : np_min NTEM_YEARS = .ok _NTEM_LOW_YEAR := by decide
    have hfil2 : NTEM_YEARS.filter (fun a => a < y) = [] := by
      apply List.filter_eq_nil_iff.mpr
      intro a ha
      have := (ntem_years_within_bounds a ha).1
      simp only [decide_eq_true_eq]
      omega
    unfold _interpolation_years
    rw [if_neg hmem, hfil1, hmin, hfil2]
    rfl

theorem out_of_range_interpolation_raises_witness :
    (_NTEM_HIGH_YEAR < (2062 : Int)
      ∧ _interpolation_years 2062 = .error numpy_empty_min_error)
    ∧ ((2010 : Int) < _NTEM_LOW_YEAR
      ∧ _interpolation_years 2010 = .error numpy_empty_max_error) :=
  ⟨⟨by decide, (out_of_range_interpolation_raises 2062).1 (by decide)⟩,
   ⟨by decide, (out_of_range_interpolation_raises 2010).2 (by decide)⟩⟩

/-- Claim C6, counterexample.  When the wrapped query returns zero rows
the wrapper does raise, but the ValueError message is the fixed string
"No data returned from query" (queries.py line 47): it contains no digit
at all, hence not the years involved. -/
theorem empty_query_error_without_years :
    _linear_interpolate (fun _ => .ok empty_year_frame) [2013]
        = .error "No data returned from query"
    ∧ ∀ c ∈ "No data returned from query".toList, ¬ c.isDigit := by
  decide

/-- Claim C6, amended.  Whenever the store query behind the wrapper
returns zero rows (in particular when a year needed as an interpolation
bracket has no data), the wrapper raises a fatal ValueError instead of
returning an empty or truncated result; the message is the fixed string "No
data returned from query" and does not name the years. -/
theorem empty_query_fatal_error (func : List Int → Except String LFrame)
    (years : List Int) (ip : List (Int × Option (Int × Int))) (qys : List Int)
    (fr : LFrame) (hg : gather_years years = .ok (ip, qys))
    (hf : func qys = .ok fr) (he : fr.rows = []) :
    _linear_interpolate func years = .error "No data returned from query" := by
  simp [_linear_interpolate, hg, hf, he]

theorem empty_query_fatal_error_witness :
    gather_years [2013] = .ok ([(2013, some (2011, 2016))], [2011, 2016])
    ∧ (fun _ : List Int => (.ok empty_year_frame : Except String LFrame)) [2011, 2016]
        = .ok empty_year_frame
    ∧ empty_year_frame.rows = []
    ∧ _linear_interpolate (fun _ => .ok empty_year_frame) [2013]
        = .error "No data returned from query" :=
  ⟨by decide, rfl, rfl,
   empty_query_fatal_error (fun _ => .ok empty_year_frame) [2013]
     [(2013, some (2011, 2016))] [2011, 2016] empty_year_frame (by decide) rfl rfl⟩

/-- Claim C7, counterexample.  A rename map that references a source
column absent from the table does not by itself make the load fail: pandas
rename ignores absent keys, and the subsequent column selection succeeds
whenever the target labels are present; here the map references column "A"
which is absent from the table (whose only column is "B"), yet access_to_df
succeeds. -/
theorem absent_source_column_not_fatal :
    access_to_df "tblLookUpPlanning83" ["B"] (some [("A", "B")]) = .ok ["B"]
    ∧ ("A" ∉ ["B"]) := by decide

/-- Claim C7, amended.  The load fails if and only if some target column
of the rename map is absent from the renamed table: in that case
access_to_df raises the KeyError of build.py lines 99-101, whose message
names every target column of the map (hence every missing one) together
with the table, and the lookup-table load appends nothing; a rename-map
source column absent from the table does not by itself raise when its
target label is otherwise present. -/
theorem missing_target_columns_fatal (table : String) (columns : List String)
    (sub : List (String × String)) (t : String)
    (hmem : t ∈ sub.map Prod.snd)
    (habs : t ∉ pandas_rename_columns columns sub) :
    access_to_df table columns (some sub)
        = .error (.missing_columns (sub.map Prod.snd) table)
    ∧ t ∈ sub.map Prod.snd
    ∧ ∀ store, load_lookup_table store table columns (some sub)
        = .error (.missing_columns (sub.map Prod.snd) table) := by
  have hfail : ¬ ∀ c ∈ sub.map Prod.snd, c ∈ pandas_rename_columns columns sub :=
    fun hall => habs (hall t hmem)
  have hacc : access_to_df table columns (some sub)
      = .error (.missing_columns (sub.map Prod.snd) table) := by
    simp only [access_to_df]
    rw [if_neg hfail]
  refine ⟨hacc, hmem, fun store => ?_⟩
  simp [load_lookup_table, hacc]

theorem missing_target_columns_fatal_witness :
    ("name" ∈ [("PlanID", "id"), ("PlanDesc", "name")].map Prod.snd
      ∧ "name" ∉ pandas_rename_columns ["PlanID"] [("PlanID", "id"), ("PlanDesc", "name")])
    ∧ (access_to_df "tblLookUpPlanning83" ["PlanID"]
          (some [("PlanID", "id"), ("PlanDesc", "name")])
        = .error (.missing_columns
            ([("PlanID", "id"), ("PlanDesc", "name")].map Prod.snd) "tblLookUpPlanning83")
      ∧ "name" ∈ [("PlanID", "id"), ("PlanDesc", "name")].map Prod.snd
      ∧ ∀ store, load_lookup_table store "tblLookUpPlanning83" ["PlanID"]
          (some [("PlanID", "id"), ("PlanDesc", "name")])
        = .error (.missing_columns
            ([("PlanID", "id"), ("PlanDesc", "name")].map Prod.snd) "tblLookUpPlanning83")) :=
  ⟨⟨by decide, by decide⟩,
   missing_target_columns_fatal "tblLookUpPlanning83" ["PlanID"]
     [("PlanID", "id"), ("PlanDesc", "name")] "name" (by decide) (by decide)⟩

/-! ## Helper lemmas -/

theorem length_flatMap_const {α β : Type} (l : List α) (f : α → List β) (k : Nat)
    (h : ∀ a ∈ l, (f a).length = k) : (l.flatMap f).length = l.length * k := by
  induction l with
  | nil => simp
  | cons a t ih =>
      rw [List.flatMap_cons, List.length_append, h a (by simp),
        ih (fun b hb => h b (by simp [hb])), List.length_cons]
      ring

theorem pandas_replace_ne (sub : List (Int × Int)) (z v : Int)
    (hz : z ≠ v) (hsub : ∀ p ∈ sub, p.2 ≠ v) : pandas_replace sub z ≠ v := by
  unfold pandas_replace
  cases h : sub.lookup z with
  | none => simpa using hz
  | some w =>
      have hw : (z, w) ∈ sub := by
        obtain ⟨l1, l2, hsplit, -⟩ := List.lookup_eq_some_iff.mp h
        rw [hsplit]
        exact List.mem_append_right _ (List.mem_cons_self _ _)
      simpa using hsub (z, w) hw

theorem map_indexOf_self {α : Type} [DecidableEq α] (l : List α) (h : l.Nodup) :
    l.map (fun a => l.indexOf a) = List.range l.length := by
  apply List.ext_getElem
  · simp
  · intro i h1 h2
    simp only [List.getElem_map, List.getElem_range]
    exact List.indexOf_getElem h i (by simpa using h1)

theorem range_map_getD (l : List Int) (n : Nat) (h : l.length = n) :
    (List.range n).map (fun i => l.getD i 0) = l := by
  subst h
  apply List.ext_getElem
  · simp
  · intro i h1 h2
    simp only [List.getElem_map, List.getElem_range]
    rw [List.getD_eq_getElem?_getD, List.getElem?_eq_getElem h2, Option.getD_some]

/-- Reordering the year level to the end is the identity on a frame whose
year level is already last. -/
theorem reorder_levels_self (pre : List String) (rows : List (List Int × ℚ))
    (hpre : "year" ∉ pre) (hnd : (pre ++ ["year"]).Nodup)
    (hrows : ∀ r ∈ rows, r.1.length = pre.length + 1) :
    reorder_levels_to_last { levelNames := pre ++ ["year"], rows := rows } "year"
      = { levelNames := pre ++ ["year"], rows := rows } := by
  unfold reorder_levels_to_last
  have herase : (pre ++ ["year"]).erase "year" = pre := by
    rw [List.erase_append_right _ hpre, List.erase_cons_head, List.append_nil]
  simp only [herase]
  rw [map_indexOf_self _ hnd]
  have hrows2 : rows.map (fun r =>
      ((List.range (pre ++ ["year"]).length).map (fun i => r.1.getD i 0), r.2)) = rows := by
    conv_rhs => rw [← List.map_id rows]
    apply List.map_congr_left
    intro r hr
    rw [range_map_getD r.1 _ (by simp [hrows r hr])]
    rfl
  rw [hrows2]

/-! ## Remaining claim theorems -/

/-- Claim C4 (confirmed).  The fact loader appends exactly one long row
per (kept wide row x year column): rows whose zone_id is the reserved
invalid marker 9999 are dropped before the melt, and no appended row
carries the marker, given that the zone-id substitution built by the
reconciliation pass never maps onto the marker (its values are
store-assigned Zone identifiers). -/
theorem fact_loader_reshape_invariant (t : WideTable) (metadata_id : Int)
    (sub : List (Int × Int)) (hsub : ∀ p ∈ sub, p.2 ≠ INVALID_ZONE_ID) :
    (_process_ntem_access_file t metadata_id sub).length
        = (t.rows.filter (fun r => r.1 ≠ INVALID_ZONE_ID)).length
            * t.year_columns.length
    ∧ ∀ fr ∈ _process_ntem_access_file t metadata_id sub,
        fr.zone_id ≠ INVALID_ZONE_ID := by
  constructor
  · unfold _process_ntem_access_file
    rw [List.length_map,
      length_flatMap_const _ _ (t.rows.filter (fun r => r.1 ≠ INVALID_ZONE_ID)).length
        (fun p _ => List.length_map _ _)]
    rw [List.enum_length]
    ring
  · intro fr hfr
    unfold _process_ntem_access_file at hfr
    simp only [List.mem_map, List.mem_flatMap] at hfr
    obtain ⟨fr0, ⟨p, hp, r, hr, hfr0⟩, rfl⟩ := hfr
    have hz : r.1 ≠ INVALID_ZONE_ID := by
      have := (List.mem_filter.mp hr).2
      simpa using this
    have hzone : fr0.zone_id = r.1 := by rw [← hfr0]
    simpa [hzone] using pandas_replace_ne sub r.1 INVALID_ZONE_ID hz hsub

def c4_wide_table : WideTable :=
  { year_columns := [2011, 2016],
    rows := [(5, [1], [2, 3]), (9999, [1], [4, 4])] }

theorem fact_loader_reshape_invariant_witness :
    (∀ p ∈ [((5 : Int), (77 : Int))], p.2 ≠ INVALID_ZONE_ID)
    ∧ ((_process_ntem_access_file c4_wide_table 6 [(5, 77)]).length
          = (c4_wide_table.rows.filter (fun r => r.1 ≠ INVALID_ZONE_ID)).length
              * c4_wide_table.year_columns.length
      ∧ ∀ fr ∈ _process_ntem_access_file c4_wide_table 6 [(5, 77)],
          fr.zone_id ≠ INVALID_ZONE_ID) :=
  ⟨by decide, fact_loader_reshape_invariant c4_wide_table 6 [(5, 77)] (by decide)⟩

/-- Claim C8 (confirmed).  When two raw records of a hierarchy share the
same natural key the join of the re-read Zone rows back to the raw records
is not one-to-one, and _process_geo_lookup_data raises the pandas
MergeError of validate="one_to_one" instead of silently picking one
record; no mapping is returned. -/
theorem duplicate_natural_key_merge_error (zones_table : List DbZoneRow)
    (system_data : List ZoneSourceRecord) (has_code_column : Bool) (system_id : Int)
    (hdup : ¬ (system_data.map (natural_join_key has_code_column)).Nodup) :
    _process_geo_lookup_data zones_table system_data has_code_column system_id
      = .error .merge_not_one_to_one := by
  simp only [_process_geo_lookup_data]
  rw [if_neg]
  intro hand
  exact hdup hand.2

def c8_dup_records : List ZoneSourceRecord :=
  [{ ntem_zoning_id := 1, name := "Newcastle upon Tyne", source_id_or_code := "E08000021" },
   { ntem_zoning_id := 2, name := "Newcastle upon Tyne", source_id_or_code := "E08000022" }]

theorem duplicate_natural_key_merge_error_witness :
    (¬ (c8_dup_records.map (natural_join_key false)).Nodup)
    ∧ _process_geo_lookup_data [] c8_dup_records false 2
        = .error .merge_not_one_to_one :=
  ⟨by decide, duplicate_natural_key_merge_error [] c8_dup_records false 2 (by decide)⟩

/-- Claim C9 (confirmed).  A requested year that is already on the native
grid is passed through: the wrapper queries that year, routes it through
the pass-through branch (queries.py line 64) with no interpolation
arithmetic, and returns exactly the wrapped query result, provided the
query result is a well-formed frame for that year (nonempty, year as its
last index level, every row carrying that year); in particular the
interpolator at a bracket year equals the plain query at that year. -/
theorem native_year_passthrough (func : List Int → Except String LFrame)
    (pre : List String) (rows : List (List Int × ℚ)) (y : Int)
    (hy : y ∈ NTEM_YEARS)
    (hfunc : func [y] = .ok { levelNames := pre ++ ["year"], rows := rows })
    (hpre : "year" ∉ pre) (hnd : (pre ++ ["year"]).Nodup)
    (hne : rows ≠ [])
    (hrows : ∀ r ∈ rows, r.1.length = pre.length + 1
        ∧ r.1.get? pre.length = some y) :
    _linear_interpolate func [y] = func [y] := by
  have hiy : _interpolation_years y = .ok none := by
    unfold _interpolation_years
    rw [if_pos hy]
  have hg : gather_years [y] = .ok ([(y, none)], [y]) := by
    simp [gather_years, hiy, insert_year]
  have hreo := reorder_levels_self pre rows hpre hnd (fun r hr => (hrows r hr).1)
  have hlen : rows.length ≠ 0 := by simpa [List.length_eq_zero] using hne
  have hmem : ¬ ("year" ∉ pre ++ ["year"]) := by simp
  have hpos : (pre ++ ["year"]).indexOf "year" = pre.length := by
    rw [List.indexOf_append_of_not_mem hpre, List.indexOf_cons_self]
    omega
  have hfil : rows.filter
      (fun r => r.1.get? ((pre ++ ["year"]).indexOf "year") = some y) = rows := by
    rw [hpos]
    apply List.filter_eq_self.mpr
    intro r hr
    simpa using (hrows r hr).2
  rw [hfunc]
  simp only [_linear_interpolate, hg, hfunc]
  rw [if_neg hlen, if_neg hmem]
  simp only [List.map_cons, List.map_nil, List.lookup_cons_self]
  rw [hreo]
  simp only [xs_keep_year, level_pos]
  rw [hfil]
  simp [concat_frames]

def c9_query_func : List Int → Except String LFrame := fun ys =>
  .ok { levelNames := ["zone", "year"],
        rows := if (2016 : Int) ∈ ys then [([7, 2016], (5 : ℚ))] else [] }

theorem native_year_passthrough_witness :
    ((2016 : Int) ∈ NTEM_YEARS
      ∧ c9_query_func [2016]
          = .ok { levelNames := ["zone"] ++ ["year"], rows := [([7, 2016], (5 : ℚ))] }
      ∧ "year" ∉ ["zone"]
      ∧ ((["zone"] ++ ["year"]).Nodup)
      ∧ ([([7, 2016], (5 : ℚ))] : List (List Int × ℚ)) ≠ []
      ∧ ∀ r ∈ ([([7, 2016], (5 : ℚ))] : List (List Int × ℚ)),
          r.1.length = (["zone"] : List String).length + 1
          ∧ r.1.get? (["zone"] : List String).length = some 2016)
    ∧ _linear_interpolate c9_query_func [2016] = c9_query_func [2016] :=
  ⟨⟨by decide, rfl, by decide, by decide, by decide, by decide⟩,
   native_year_passthrough c9_query_func ["zone"] [([7, 2016], (5 : ℚ))] 2016
     (by decide) rfl (by decide) (by decide) (by decide) (by decide)⟩

/-- Claim C10 (confirmed).  When the wrapped query returns a nonempty
frame whose index has no level named "year", the wrapper raises the
KeyError message of queries.py line 51 instead of returning a result; and
whenever the wrapper returns a frame, its index levels are those of the
query output reordered so that "year" comes last (queries.py lines 53-57),
which is the level structure of every concatenated per-year slice. -/
theorem year_level_check_and_reorder (func : List Int → Except String LFrame)
    (years : List Int) (ip : List (Int × Option (Int × Int))) (qys : List Int)
    (fr : LFrame) (hg : gather_years years = .ok (ip, qys))
    (hf : func qys = .ok fr) (hne : fr.rows ≠ []) :
    ("year" ∉ fr.levelNames →
        _linear_interpolate func years = .error "\x27year\x27 not in index levels")
    ∧ ∀ out, _linear_interpolate func years = .ok out →
        out.levelNames = (fr.levelNames.erase "year") ++ ["year"] := by
  have hlen : fr.rows.length ≠ 0 := by simpa [List.length_eq_zero] using hne
  constructor
  · intro hy
    simp [_linear_interpolate, hg, hf, hlen, hy]
  · intro out hout
    simp only [_linear_interpolate, hg, hf] at hout
    rw [if_neg hlen] at hout
    by_cases hy : "year" ∉ fr.levelNames
    · rw [if_pos hy] at hout
      exact absurd hout (by simp)
    · rw [if_neg hy] at hout
      split at hout
      · exact absurd hout (by simp)
      · simp only [Except.ok.injEq] at hout
        rw [← hout]
        simp [concat_frames, reorder_levels_to_last]

def c10_no_year_frame : LFrame := { levelNames := ["zone"], rows := [([1], 3)] }

theorem year_level_check_and_reorder_witness :
    (gather_years [2016] = .ok ([(2016, none)], [2016])
      ∧ (fun _ : List Int => (.ok c10_no_year_frame : Except String LFrame)) [2016]
          = .ok c10_no_year_frame
      ∧ c10_no_year_frame.rows ≠ [])
    ∧ (("year" ∉ c10_no_year_frame.levelNames →
          _linear_interpolate (fun _ => .ok c10_no_year_frame) [2016]
            = .error "\x27year\x27 not in index levels")
      ∧ ∀ out, _linear_interpolate (fun _ => .ok c10_no_year_frame) [2016] = .ok out →
          out.levelNames = (c10_no_year_frame.levelNames.erase "year") ++ ["year"]) :=
  ⟨⟨by decide, rfl, by decide⟩,
   year_level_check_and_reorder (fun _ => .ok c10_no_year_frame) [2016]
     [(2016, none)] [2016] c10_no_year_frame (by decide) rfl (by decide)⟩
